import Mathlib

/-!
# Registration form (`src/pages/Register.jsx`)

A shallow embedding of the `Register` component: its `useState` cells, the
`handleSubmit` handler and the `disabled` attribute of the submit button.

`handleSubmit` is an `async` function with three `await`s.  The code between two
suspension points runs without interruption, so the handler is embedded as four
segments (`handleSubmit_start`, `handleSubmit_afterCreate`,
`handleSubmit_afterSend`, `handleSubmit_afterSetDoc`); each segment ends either at
the next `await` (returning what the suspended run still holds in its closure) or
at the end of the handler.  `handleSubmit` chains the segments against an
arbitrary implementation of the three remote services; `step` interleaves them
with the other events of one mounted form.

Firebase (`createUserWithEmailAndPassword`, `sendEmailVerification`, `setDoc`),
the clock (`new Date().toISOString()`), `toast`, `setTimeout`/`navigate` and
`console.log` are not part of the repository.  The three remote services and the
clock are parameters (`Services`); the other effects are recorded as logs in the
state.
-/

namespace Register

/-! ## Data -/

/-- The value caught at line 55: `error.code` (may be absent) and `error.message`. -/
structure JsError where
  code : Option String
  message : String
deriving DecidableEq, Repr

/-- The `user` of the credential returned by `createUserWithEmailAndPassword`;
only `user.uid` and `user.email` are read (lines 42-45). -/
structure User where
  uid : String
  email : String
deriving DecidableEq, Repr

/-- A notification raised through `toast.error` or `toast.success`. -/
inductive Toast where
  | error (text : String)
  | success (text : String)
deriving DecidableEq, Repr

/-- The document reference built by `doc(db, collection, id)` (line 42). -/
structure DocRef where
  collection : String
  id : String
deriving DecidableEq, Repr

/-- An object literal passed to `setDoc`: its fields in source order. -/
abbrev DocData := List (String × String)

/-- A remote call issued by the handler, with its arguments. -/
inductive Call where
  | createUserWithEmailAndPassword (email password : String)
  | sendEmailVerification (user : User)
  | setDoc (ref : DocRef) (data : DocData)
deriving DecidableEq, Repr

/-- A pending `setTimeout(() => navigate(path), delay)` (lines 52-54). -/
structure Timer where
  delay : Nat
  path : String
deriving DecidableEq, Repr

/-- A line written by `console.log` (lines 50 and 66). -/
inductive LogLine where
  | userSaved (user : User)
  | text (s : String)
deriving DecidableEq, Repr

/-- The seven `useState` cells of the component (lines 14-20) together with the
logs of what the handler has done so far to the notification surface, the timer
queue, the console and the remote services. -/
structure State where
  isLoading : Bool
  email : String
  username : String
  password : String
  confirmPassword : String
  showPassword : Bool
  showConfirmPassword : Bool
  toasts : List Toast
  timers : List Timer
  console : List LogLine
  calls : List Call
deriving DecidableEq, Repr

/-- The component as first rendered (lines 14-20), nothing done yet. -/
def State.initial : State :=
  { isLoading := false, email := "", username := "", password := "",
    confirmPassword := "", showPassword := false, showConfirmPassword := false,
    toasts := [], timers := [], console := [], calls := [] }

/-! ## Primitive effects -/

/-- The state setter `setIsLoading(b)`. -/
def setIsLoading (s : State) (b : Bool) : State := { s with isLoading := b }

/-- The notification `toast.error(text)`. -/
def toastError (s : State) (text : String) : State :=
  { s with toasts := s.toasts ++ [Toast.error text] }

/-- The notification `toast.success(text)`. -/
def toastSuccess (s : State) (text : String) : State :=
  { s with toasts := s.toasts ++ [Toast.success text] }

/-- The console output `console.log(...)`. -/
def consoleLog (s : State) (l : LogLine) : State :=
  { s with console := s.console ++ [l] }

/-- The deferred navigation `setTimeout(() => navigate(path), delay)`. -/
def setTimeoutNavigate (s : State) (path : String) (delay : Nat) : State :=
  { s with timers := s.timers ++ [{ delay := delay, path := path }] }

/-- The handler starts a remote call (the promise is created here, awaited next). -/
def issue (s : State) (c : Call) : State := { s with calls := s.calls ++ [c] }

/-! ## The handler -/

/-- The `catch` block, lines 55-68. -/
def catchBlock (s : State) (error : JsError) : State :=
  if error.code = some "auth/email-already-in-use" then
    toastError s "Email already in use"
  else if error.code = some "auth/invalid-email" then
    toastError s "Invalid email"
  else if error.code = some "auth/password-does-not-meet-requirements" then
    toastError s
      "Weak password (minimum 6 characters, at least one uppercase letter, one lowercase letter, one special character, and one number)"
  else
    consoleLog (toastError s ("Error signing up: " ++ error.message)) (LogLine.text error.message)

/-- The `finally` block, lines 69-71. -/
def finallyBlock (s : State) : State := setIsLoading s false

/-- What a run suspended at line 35 still needs: the arguments of the call it
awaits and the `username` of the render it was started from. -/
structure AwaitCreate where
  email : String
  password : String
  username : String
deriving DecidableEq, Repr

/-- What a run suspended at line 39 still needs. -/
structure AwaitSend where
  user : User
  username : String
deriving DecidableEq, Repr

/-- What a run suspended at line 43 still needs. -/
structure AwaitSetDoc where
  user : User
  ref : DocRef
  data : DocData
deriving DecidableEq, Repr

/-- Line 42: `doc(db, "users", user.uid)`. -/
def docUsers (user : User) : DocRef := { collection := "users", id := user.uid }

/-- Lines 43-48: the object literal written by `setDoc`; `iso` is the value of
`new Date().toISOString()`. -/
def profileData (user : User) (username iso : String) : DocData :=
  [("uid", user.uid), ("email", user.email), ("username", username), ("createdAt", iso)]

/-- Lines 24-35: from the submit event to the first `await` (or to the `return`
of line 30).  `e.preventDefault()` has no effect on the component. -/
def handleSubmit_start (s : State) : State × Option AwaitCreate :=
  let s1 := setIsLoading s true
  if s1.password ≠ s1.confirmPassword then
    (setIsLoading (toastError s1 "Passwords do not match") false, none)
  else
    (issue s1 (Call.createUserWithEmailAndPassword s1.email s1.password),
      some { email := s1.email, password := s1.password, username := s1.username })

/-- Lines 35-39: the promise of `createUserWithEmailAndPassword` has settled. -/
def handleSubmit_afterCreate (s : State) (p : AwaitCreate) (r : Except JsError User) :
    State × Option AwaitSend :=
  match r with
  | Except.error error => (finallyBlock (catchBlock s error), none)
  | Except.ok user =>
    (issue s (Call.sendEmailVerification user), some { user := user, username := p.username })

/-- Lines 39-48: the promise of `sendEmailVerification` has settled; `iso` is what
`new Date().toISOString()` returns at that moment. -/
def handleSubmit_afterSend (s : State) (p : AwaitSend) (r : Except JsError Unit) (iso : String) :
    State × Option AwaitSetDoc :=
  match r with
  | Except.error error => (finallyBlock (catchBlock s error), none)
  | Except.ok _ =>
    let usersDoc : DocRef := docUsers p.user
    let data : DocData := profileData p.user p.username iso
    (issue s (Call.setDoc usersDoc data), some { user := p.user, ref := usersDoc, data := data })

/-- Lines 48-54 and 69-71: the promise of `setDoc` has settled. -/
def handleSubmit_afterSetDoc (s : State) (p : AwaitSetDoc) (r : Except JsError Unit) : State :=
  match r with
  | Except.error error => finallyBlock (catchBlock s error)
  | Except.ok _ =>
    let s1 := consoleLog s (LogLine.userSaved p.user)
    let s2 := toastSuccess s1
      "Registration successful! Please check your email to verify your account."
    let s3 := setTimeoutNavigate s2 "/sign-in" 10000
    finallyBlock s3

/-- The external collaborators of the handler, over a state `W` of the outside
world: each remote call returns its settlement and the world it leaves behind;
`toISOString` is `new Date().toISOString()` read in a given world. -/
structure Services (W : Type) where
  createUserWithEmailAndPassword : String → String → W → Except JsError User × W
  sendEmailVerification : User → W → Except JsError Unit × W
  setDoc : DocRef → DocData → W → Except JsError Unit × W
  toISOString : W → String

/-- One complete run of `handleSubmit` (lines 23-72) from component state `s` in
world `w`, with no other event in between. -/
def handleSubmit {W : Type} (svc : Services W) (s : State) (w : W) : State × W :=
  match handleSubmit_start s with
  | (s1, none) => (s1, w)
  | (s1, some pc) =>
    let r1 := svc.createUserWithEmailAndPassword pc.email pc.password w
    match handleSubmit_afterCreate s1 pc r1.1 with
    | (s2, none) => (s2, r1.2)
    | (s2, some ps) =>
      let r2 := svc.sendEmailVerification ps.user r1.2
      match handleSubmit_afterSend s2 ps r2.1 (svc.toISOString r2.2) with
      | (s3, none) => (s3, r2.2)
      | (s3, some pw) =>
        let r3 := svc.setDoc pw.ref pw.data r2.2
        (handleSubmit_afterSetDoc s3 pw r3.1, r3.2)

/-! ## The form as an event-driven machine -/

/-- A run of `handleSubmit` suspended at one of its three `await`s. -/
inductive Pending where
  | create (p : AwaitCreate)
  | send (p : AwaitSend)
  | setDoc (p : AwaitSetDoc)
deriving DecidableEq, Repr

/-- One mounted form: the component state and the runs of `handleSubmit` that
have started and not yet finished. -/
structure Page where
  state : State
  inflight : List Pending
deriving DecidableEq, Repr

/-- The form right after mounting. -/
def Page.initial : Page := { state := State.initial, inflight := [] }

/-- Line 157: `disabled={isLoading}` on the submit button. -/
def submitDisabled (s : State) : Bool := s.isLoading

/-- What can happen to a mounted form: the user submits, a pending promise of the
`i`-th suspended run settles, or the user edits a field or flips a visibility
toggle (lines 99, 110, 121, 127, 140, 146). -/
inductive Event where
  | submit
  | createSettled (i : Nat) (r : Except JsError User)
  | sendSettled (i : Nat) (r : Except JsError Unit) (iso : String)
  | setDocSettled (i : Nat) (r : Except JsError Unit)
  | setUsername (v : String)
  | setEmail (v : String)
  | setPassword (v : String)
  | setConfirmPassword (v : String)
  | toggleShowPassword
  | toggleShowConfirmPassword

/-- One event on a mounted form; `none` when the event cannot happen (a disabled
button does not submit its form; a promise settles only for the run awaiting it). -/
def step (pg : Page) : Event → Option Page
  | Event.submit =>
    if submitDisabled pg.state then none
    else
      match handleSubmit_start pg.state with
      | (s, none) => some { state := s, inflight := pg.inflight }
      | (s, some p) => some { state := s, inflight := pg.inflight ++ [Pending.create p] }
  | Event.createSettled i r =>
    match pg.inflight.get? i with
    | some (Pending.create p) =>
      match handleSubmit_afterCreate pg.state p r with
      | (s, none) => some { state := s, inflight := pg.inflight.eraseIdx i }
      | (s, some q) => some { state := s, inflight := pg.inflight.set i (Pending.send q) }
    | _ => none
  | Event.sendSettled i r iso =>
    match pg.inflight.get? i with
    | some (Pending.send p) =>
      match handleSubmit_afterSend pg.state p r iso with
      | (s, none) => some { state := s, inflight := pg.inflight.eraseIdx i }
      | (s, some q) => some { state := s, inflight := pg.inflight.set i (Pending.setDoc q) }
    | _ => none
  | Event.setDocSettled i r =>
    match pg.inflight.get? i with
    | some (Pending.setDoc p) =>
      some { state := handleSubmit_afterSetDoc pg.state p r, inflight := pg.inflight.eraseIdx i }
    | _ => none
  | Event.setUsername v => some { pg with state := { pg.state with username := v } }
  | Event.setEmail v => some { pg with state := { pg.state with email := v } }
  | Event.setPassword v => some { pg with state := { pg.state with password := v } }
  | Event.setConfirmPassword v => some { pg with state := { pg.state with confirmPassword := v } }
  | Event.toggleShowPassword =>
    some { pg with state := { pg.state with showPassword := !pg.state.showPassword } }
  | Event.toggleShowConfirmPassword =>
    some { pg with state := { pg.state with showConfirmPassword := !pg.state.showConfirmPassword } }

/-- A sequence of events, one after the other. -/
def runEvents (pg : Page) : List Event → Option Page
  | [] => some pg
  | ev :: evs =>
    match step pg ev with
    | none => none
    | some pg1 => runEvents pg1 evs

/-! ## Vocabulary for stating properties of a run -/

/-- The three kinds of remote call. -/
inductive CallKind where
  | createAccount
  | sendVerificationEmail
  | write
deriving DecidableEq, Repr

/-- The kind of a call. -/
def Call.kind : Call → CallKind
  | Call.createUserWithEmailAndPassword _ _ => CallKind.createAccount
  | Call.sendEmailVerification _ => CallKind.sendVerificationEmail
  | Call.setDoc _ _ => CallKind.write

/-- The document-store writes among a list of calls. -/
def writes : List Call → List (DocRef × DocData)
  | [] => []
  | Call.setDoc ref data :: cs => (ref, data) :: writes cs
  | _ :: cs => writes cs

/-- The settlement of the account creation of a run from `s` in `w`, and the
world it leaves. -/
def createResult {W : Type} (svc : Services W) (s : State) (w : W) : Except JsError User × W :=
  svc.createUserWithEmailAndPassword s.email s.password w

/-- The settlement of the verification request for `user` in that run. -/
def sendResult {W : Type} (svc : Services W) (s : State) (w : W) (user : User) :
    Except JsError Unit × W :=
  svc.sendEmailVerification user (createResult svc s w).2

/-- The clock reading `new Date().toISOString()` of that run, taken after the
verification request has resolved. -/
def clockReading {W : Type} (svc : Services W) (s : State) (w : W) (user : User) : String :=
  svc.toISOString (sendResult svc s w user).2

/-- The settlement of the profile write for `user` in that run. -/
def setDocResult {W : Type} (svc : Services W) (s : State) (w : W) (user : User) :
    Except JsError Unit × W :=
  svc.setDoc (docUsers user) (profileData user s.username (clockReading svc s w user))
    (sendResult svc s w user).2

/-- The run from `s` in `w` passes the password check and all three remote calls
resolve, the account created being `user`. -/
def Succeeds {W : Type} (svc : Services W) (s : State) (w : W) (user : User) : Prop :=
  s.password = s.confirmPassword ∧
  (createResult svc s w).1 = Except.ok user ∧
  (sendResult svc s w user).1 = Except.ok () ∧
  (setDocResult svc s w user).1 = Except.ok ()

/-- The run from `s` in `w` passes the password check and one of its three remote
calls is rejected with `error`, the earlier ones having resolved. -/
def Raises {W : Type} (svc : Services W) (s : State) (w : W) (error : JsError) : Prop :=
  s.password = s.confirmPassword ∧
  ((createResult svc s w).1 = Except.error error ∨
   (∃ user, (createResult svc s w).1 = Except.ok user ∧
      (sendResult svc s w user).1 = Except.error error) ∨
   (∃ user, (createResult svc s w).1 = Except.ok user ∧
      (sendResult svc s w user).1 = Except.ok () ∧
      (setDocResult svc s w user).1 = Except.error error))

/-- The run from `s` in `w` fails: the passwords differ, or a remote call is
rejected. -/
def Fails {W : Type} (svc : Services W) (s : State) (w : W) : Prop :=
  s.password ≠ s.confirmPassword ∨ ∃ error, Raises svc s w error

/-- The text the `catch` block (lines 56-65) passes to `toast.error` for `error`. -/
def errorText (error : JsError) : String :=
  if error.code = some "auth/email-already-in-use" then "Email already in use"
  else if error.code = some "auth/invalid-email" then "Invalid email"
  else if error.code = some "auth/password-does-not-meet-requirements" then
    "Weak password (minimum 6 characters, at least one uppercase letter, one lowercase letter, one special character, and one number)"
  else "Error signing up: " ++ error.message

/-- What is assumed of the remote services when a property speaks of what they
hold: `hasAccount w u` reads "the identity provider holds account `u` in world
`w`", `hasDoc w ref` reads "the document store holds a document at `ref`".  A
resolved account creation makes the provider hold the account; the two later
calls do not remove accounts; no call but a resolved `setDoc` adds a document. -/
structure Lawful {W : Type} (svc : Services W) (hasAccount : W → User → Prop)
    (hasDoc : W → DocRef → Prop) : Prop where
  create_holds : ∀ email password w user,
    (svc.createUserWithEmailAndPassword email password w).1 = Except.ok user →
    hasAccount (svc.createUserWithEmailAndPassword email password w).2 user
  send_keeps : ∀ user w u, hasAccount w u → hasAccount (svc.sendEmailVerification user w).2 u
  setDoc_keeps : ∀ ref data w u, hasAccount w u → hasAccount (svc.setDoc ref data w).2 u
  create_adds_no_doc : ∀ email password w ref,
    ¬ hasDoc w ref → ¬ hasDoc (svc.createUserWithEmailAndPassword email password w).2 ref
  send_adds_no_doc : ∀ user w ref, ¬ hasDoc w ref → ¬ hasDoc (svc.sendEmailVerification user w).2 ref
  failed_setDoc_adds_no_doc : ∀ ref data w error r,
    (svc.setDoc ref data w).1 = Except.error error →
    ¬ hasDoc w r → ¬ hasDoc (svc.setDoc ref data w).2 r

/-! ## An in-memory test double of the remote services -/

/-- The world of the test double: the accounts of the identity provider, the
documents of the store, the faults to inject and the clock. -/
structure MockWorld where
  accounts : List User
  docs : List (DocRef × DocData)
  createFault : Option JsError
  sendFault : Option JsError
  setDocFault : Option JsError
  now : String
deriving DecidableEq, Repr

/-- An in-memory identity provider and document store.  Account creation rejects
an e-mail address already registered; `setDoc` replaces the document at `ref`. -/
def mock : Services MockWorld where
  createUserWithEmailAndPassword email _ w :=
    match w.createFault with
    | some error => (Except.error error, w)
    | none =>
      if w.accounts.any (fun u => u.email == email) then
        (Except.error { code := some "auth/email-already-in-use", message := "taken" }, w)
      else
        (Except.ok { uid := "uid:" ++ email, email := email },
          { w with accounts := w.accounts ++ [{ uid := "uid:" ++ email, email := email }] })
  sendEmailVerification _ w :=
    match w.sendFault with
    | some error => (Except.error error, w)
    | none => (Except.ok (), w)
  setDoc ref data w :=
    match w.setDocFault with
    | some error => (Except.error error, w)
    | none => (Except.ok (), { w with docs := (ref, data) :: w.docs.filter (fun d => d.1 != ref) })
  toISOString w := w.now

/-- A fresh provider and store, no fault injected. -/
def MockWorld.fresh : MockWorld :=
  { accounts := [], docs := [], createFault := none, sendFault := none, setDocFault := none,
    now := "2024-01-01T00:00:00.000Z" }

/-- The request of the end-to-end scenario, typed into a freshly mounted form. -/
def aliceForm : State :=
  { State.initial with
    email := "a@b.com", username := "alice", password := "Abc123!", confirmPassword := "Abc123!" }

/-- The same request with a confirmation that differs from the password. -/
def mismatchForm : State := { aliceForm with confirmPassword := "abc123!" }

/-- A fresh test double whose account creation is rejected with `error`. -/
def MockWorld.createFailing (error : JsError) : MockWorld :=
  { MockWorld.fresh with createFault := some error }

/-- A fresh test double whose verification request is rejected with `error`. -/
def MockWorld.sendFailing (error : JsError) : MockWorld :=
  { MockWorld.fresh with sendFault := some error }

/-- A fresh test double whose document write is rejected with `error`. -/
def MockWorld.setDocFailing (error : JsError) : MockWorld :=
  { MockWorld.fresh with setDocFault := some error }

/-- The account the test double creates for the request of `aliceForm`. -/
def aliceUser : User := { uid := "uid:a@b.com", email := "a@b.com" }

/-- An error without a recognised code. -/
def networkError : JsError := { code := some "auth/network-request-failed", message := "offline" }

/-- The test double holds account `u`. -/
def mockHasAccount (w : MockWorld) (u : User) : Prop := u ∈ w.accounts

/-- The test double holds a document at `ref`. -/
def mockHasDoc (w : MockWorld) (ref : DocRef) : Prop := ∃ d ∈ w.docs, d.1 = ref

/-- Two runs in a row from the same form: the second starts from the component
state and the world the first one left. -/
def resubmit {W : Type} (svc : Services W) (s : State) (w : W) : State × W :=
  handleSubmit svc (handleSubmit svc s w).1 (handleSubmit svc s w).2

/-- A short session: the user types matching passwords, submits, and the account
creation resolves. -/
def demoEvents : List Event :=
  [Event.setPassword "Abc123!", Event.setConfirmPassword "Abc123!", Event.submit,
   Event.createSettled 0 (Except.ok aliceUser)]

/-- The form after `demoEvents`: a single run, suspended at the second `await`. -/
def demoPage : Page :=
  { state :=
      { State.initial with
        isLoading := true, password := "Abc123!", confirmPassword := "Abc123!",
        calls := [Call.createUserWithEmailAndPassword "" "Abc123!",
                  Call.sendEmailVerification aliceUser] },
    inflight := [Pending.send { user := aliceUser, username := "" }] }

/-- No run is pending and the flag is down, or exactly one run is pending and the
flag is up. -/
def Page.Inv (pg : Page) : Prop :=
  (pg.inflight = [] ∧ pg.state.isLoading = false) ∨
  (∃ p, pg.inflight = [p] ∧ pg.state.isLoading = true)

/-! ## What one run does, case by case -/

/-- The state in which the first remote call has just been issued. -/
def started (s : State) : State :=
  issue (setIsLoading s true) (Call.createUserWithEmailAndPassword s.email s.password)

theorem handleSubmit_of_mismatch {W : Type} (svc : Services W) (s : State) (w : W)
    (h : s.password ≠ s.confirmPassword) :
    handleSubmit svc s w =
      (setIsLoading (toastError (setIsLoading s true) "Passwords do not match") false, w) := by
  simp [handleSubmit, handleSubmit_start, setIsLoading, h]

theorem handleSubmit_of_createFails {W : Type} (svc : Services W) (s : State) (w : W)
    (error : JsError) (h : s.password = s.confirmPassword)
    (h1 : (createResult svc s w).1 = Except.error error) :
    handleSubmit svc s w =
      (finallyBlock (catchBlock (started s) error), (createResult svc s w).2) := by
  simp only [createResult, h] at h1
  simp [handleSubmit, handleSubmit_start, handleSubmit_afterCreate, setIsLoading, h, h1,
    started, createResult]

theorem handleSubmit_of_sendFails {W : Type} (svc : Services W) (s : State) (w : W)
    (user : User) (error : JsError) (h : s.password = s.confirmPassword)
    (h1 : (createResult svc s w).1 = Except.ok user)
    (h2 : (sendResult svc s w user).1 = Except.error error) :
    handleSubmit svc s w =
      (finallyBlock (catchBlock (issue (started s) (Call.sendEmailVerification user)) error),
        (sendResult svc s w user).2) := by
  simp only [createResult, sendResult, h] at h1 h2
  simp [handleSubmit, handleSubmit_start, handleSubmit_afterCreate, handleSubmit_afterSend,
    setIsLoading, h, h1, h2, started, createResult, sendResult]

theorem handleSubmit_of_setDocFails {W : Type} (svc : Services W) (s : State) (w : W)
    (user : User) (error : JsError) (h : s.password = s.confirmPassword)
    (h1 : (createResult svc s w).1 = Except.ok user)
    (h2 : (sendResult svc s w user).1 = Except.ok ())
    (h3 : (setDocResult svc s w user).1 = Except.error error) :
    handleSubmit svc s w =
      (finallyBlock (catchBlock
          (issue (issue (started s) (Call.sendEmailVerification user))
            (Call.setDoc (docUsers user)
              (profileData user s.username (clockReading svc s w user)))) error),
        (setDocResult svc s w user).2) := by
  simp only [createResult, sendResult, setDocResult, clockReading, h] at h1 h2 h3
  simp [handleSubmit, handleSubmit_start, handleSubmit_afterCreate, handleSubmit_afterSend,
    handleSubmit_afterSetDoc, setIsLoading, h, h1, h2, h3, started, createResult, sendResult,
    setDocResult, clockReading]

theorem handleSubmit_of_succeeds {W : Type} (svc : Services W) (s : State) (w : W)
    (user : User) (h : Succeeds svc s w user) :
    handleSubmit svc s w =
      (finallyBlock (setTimeoutNavigate (toastSuccess (consoleLog
          (issue (issue (started s) (Call.sendEmailVerification user))
            (Call.setDoc (docUsers user)
              (profileData user s.username (clockReading svc s w user))))
          (LogLine.userSaved user))
          "Registration successful! Please check your email to verify your account.")
          "/sign-in" 10000),
        (setDocResult svc s w user).2) := by
  obtain ⟨h, h1, h2, h3⟩ := h
  simp only [createResult, sendResult, setDocResult, clockReading, h] at h1 h2 h3
  simp [handleSubmit, handleSubmit_start, handleSubmit_afterCreate, handleSubmit_afterSend,
    handleSubmit_afterSetDoc, setIsLoading, h, h1, h2, h3, started, createResult, sendResult,
    setDocResult, clockReading]

/-! ## Projections of the blocks -/

@[simp] theorem catchBlock_toasts (s : State) (error : JsError) :
    (catchBlock s error).toasts = s.toasts ++ [Toast.error (errorText error)] := by
  unfold catchBlock errorText
  split_ifs <;> simp [toastError, consoleLog]

@[simp] theorem catchBlock_calls (s : State) (error : JsError) :
    (catchBlock s error).calls = s.calls := by
  unfold catchBlock
  split_ifs <;> simp [toastError, consoleLog]

@[simp] theorem catchBlock_timers (s : State) (error : JsError) :
    (catchBlock s error).timers = s.timers := by
  unfold catchBlock
  split_ifs <;> simp [toastError, consoleLog]

@[simp] theorem catchBlock_email (s : State) (error : JsError) :
    (catchBlock s error).email = s.email := by
  unfold catchBlock
  split_ifs <;> simp [toastError, consoleLog]

@[simp] theorem catchBlock_username (s : State) (error : JsError) :
    (catchBlock s error).username = s.username := by
  unfold catchBlock
  split_ifs <;> simp [toastError, consoleLog]

@[simp] theorem catchBlock_password (s : State) (error : JsError) :
    (catchBlock s error).password = s.password := by
  unfold catchBlock
  split_ifs <;> simp [toastError, consoleLog]

@[simp] theorem catchBlock_confirmPassword (s : State) (error : JsError) :
    (catchBlock s error).confirmPassword = s.confirmPassword := by
  unfold catchBlock
  split_ifs <;> simp [toastError, consoleLog]

@[simp] theorem catchBlock_showPassword (s : State) (error : JsError) :
    (catchBlock s error).showPassword = s.showPassword := by
  unfold catchBlock
  split_ifs <;> simp [toastError, consoleLog]

@[simp] theorem catchBlock_showConfirmPassword (s : State) (error : JsError) :
    (catchBlock s error).showConfirmPassword = s.showConfirmPassword := by
  unfold catchBlock
  split_ifs <;> simp [toastError, consoleLog]

@[simp] theorem catchBlock_isLoading (s : State) (error : JsError) :
    (catchBlock s error).isLoading = s.isLoading := by
  unfold catchBlock
  split_ifs <;> simp [toastError, consoleLog]

theorem writes_append (xs ys : List Call) : writes (xs ++ ys) = writes xs ++ writes ys := by
  induction xs with
  | nil => rfl
  | cons c cs ih => cases c <;> simp [writes, ih]

/-- Every run is of exactly one of five shapes. -/
theorem run_cases {W : Type} (svc : Services W) (s : State) (w : W) :
    s.password ≠ s.confirmPassword ∨
    (s.password = s.confirmPassword ∧ ∃ error, (createResult svc s w).1 = Except.error error) ∨
    (s.password = s.confirmPassword ∧ ∃ user error,
      (createResult svc s w).1 = Except.ok user ∧
      (sendResult svc s w user).1 = Except.error error) ∨
    (s.password = s.confirmPassword ∧ ∃ user error,
      (createResult svc s w).1 = Except.ok user ∧
      (sendResult svc s w user).1 = Except.ok () ∧
      (setDocResult svc s w user).1 = Except.error error) ∨
    (∃ user, Succeeds svc s w user) := by
  by_cases h : s.password = s.confirmPassword
  · right
    cases h1 : (createResult svc s w).1 with
    | error e => exact Or.inl ⟨h, e, rfl⟩
    | ok user =>
      right
      cases h2 : (sendResult svc s w user).1 with
      | error e => exact Or.inl ⟨h, user, e, rfl, h2⟩
      | ok u =>
        right
        cases h3 : (setDocResult svc s w user).1 with
        | error e => exact Or.inl ⟨h, user, e, rfl, h2, h3⟩
        | ok u3 => exact Or.inr ⟨user, h, h1, h2, h3⟩
  · exact Or.inl h

theorem not_fails_of_succeeds {W : Type} (svc : Services W) (s : State) (w : W) (user : User)
    (h : Succeeds svc s w user) : ¬ Fails svc s w := by
  obtain ⟨h0, h1, h2, h3⟩ := h
  rintro (hm | ⟨e, _, hc | ⟨u, hc, hs⟩ | ⟨u, hc, hs, hd⟩⟩)
  · exact hm h0
  · rw [h1] at hc; cases hc
  · rw [h1] at hc; cases hc; rw [h2] at hs; cases hs
  · rw [h1] at hc; cases hc; rw [h3] at hd; cases hd

theorem toasts_of_raises {W : Type} (svc : Services W) (s : State) (w : W) (error : JsError)
    (h : Raises svc s w error) :
    (handleSubmit svc s w).1.toasts = s.toasts ++ [Toast.error (errorText error)] := by
  obtain ⟨h, h1 | ⟨u, h1, h2⟩ | ⟨u, h1, h2, h3⟩⟩ := h
  · rw [handleSubmit_of_createFails svc s w error h h1]
    simp [finallyBlock, setIsLoading, issue, started]
  · rw [handleSubmit_of_sendFails svc s w u error h h1 h2]
    simp [finallyBlock, setIsLoading, issue, started]
  · rw [handleSubmit_of_setDocFails svc s w u error h h1 h2 h3]
    simp [finallyBlock, setIsLoading, issue, started]

theorem timers_of_raises {W : Type} (svc : Services W) (s : State) (w : W) (error : JsError)
    (h : Raises svc s w error) : (handleSubmit svc s w).1.timers = s.timers := by
  obtain ⟨h, h1 | ⟨u, h1, h2⟩ | ⟨u, h1, h2, h3⟩⟩ := h
  · rw [handleSubmit_of_createFails svc s w error h h1]
    simp [finallyBlock, setIsLoading, issue, started]
  · rw [handleSubmit_of_sendFails svc s w u error h h1 h2]
    simp [finallyBlock, setIsLoading, issue, started]
  · rw [handleSubmit_of_setDocFails svc s w u error h h1 h2 h3]
    simp [finallyBlock, setIsLoading, issue, started]

/-- The calls a run issues, by shape of the run. -/
theorem calls_of_run {W : Type} (svc : Services W) (s : State) (w : W) :
    (s.password ≠ s.confirmPassword → (handleSubmit svc s w).1.calls = s.calls) ∧
    (s.password = s.confirmPassword →
      ∀ error, (createResult svc s w).1 = Except.error error →
        (handleSubmit svc s w).1.calls =
          s.calls ++ [Call.createUserWithEmailAndPassword s.email s.password]) ∧
    (s.password = s.confirmPassword →
      ∀ user error, (createResult svc s w).1 = Except.ok user →
        (sendResult svc s w user).1 = Except.error error →
        (handleSubmit svc s w).1.calls =
          s.calls ++ [Call.createUserWithEmailAndPassword s.email s.password,
            Call.sendEmailVerification user]) ∧
    (s.password = s.confirmPassword →
      ∀ user, (createResult svc s w).1 = Except.ok user →
        (sendResult svc s w user).1 = Except.ok () →
        (handleSubmit svc s w).1.calls =
          s.calls ++ [Call.createUserWithEmailAndPassword s.email s.password,
            Call.sendEmailVerification user,
            Call.setDoc (docUsers user)
              (profileData user s.username (clockReading svc s w user))]) := by
  refine ⟨fun h => ?_, fun h e h1 => ?_, fun h u e h1 h2 => ?_, fun h u h1 h2 => ?_⟩
  · rw [handleSubmit_of_mismatch svc s w h]
    simp [setIsLoading, toastError]
  · rw [handleSubmit_of_createFails svc s w e h h1]
    simp [finallyBlock, setIsLoading, issue, started]
  · rw [handleSubmit_of_sendFails svc s w u e h h1 h2]
    simp [finallyBlock, setIsLoading, issue, started]
  · cases h3 : (setDocResult svc s w u).1 with
    | error e =>
      rw [handleSubmit_of_setDocFails svc s w u e h h1 h2 h3]
      simp [finallyBlock, setIsLoading, issue, started]
    | ok u3 =>
      rw [handleSubmit_of_succeeds svc s w u ⟨h, h1, h2, h3⟩]
      simp [finallyBlock, setIsLoading, setTimeoutNavigate, toastSuccess, consoleLog, issue,
        started]

/-- A run changes none of the form fields and ends with the flag down. -/
theorem fields_of_run {W : Type} (svc : Services W) (s : State) (w : W) :
    (handleSubmit svc s w).1.isLoading = false ∧
    (handleSubmit svc s w).1.email = s.email ∧
    (handleSubmit svc s w).1.username = s.username ∧
    (handleSubmit svc s w).1.password = s.password ∧
    (handleSubmit svc s w).1.confirmPassword = s.confirmPassword ∧
    (handleSubmit svc s w).1.showPassword = s.showPassword ∧
    (handleSubmit svc s w).1.showConfirmPassword = s.showConfirmPassword := by
  rcases run_cases svc s w with h | ⟨h, e, h1⟩ | ⟨h, u, e, h1, h2⟩ | ⟨h, u, e, h1, h2, h3⟩ | ⟨u, hs⟩
  · rw [handleSubmit_of_mismatch svc s w h]
    simp [setIsLoading, toastError]
  · rw [handleSubmit_of_createFails svc s w e h h1]
    simp [finallyBlock, setIsLoading, issue, started]
  · rw [handleSubmit_of_sendFails svc s w u e h h1 h2]
    simp [finallyBlock, setIsLoading, issue, started]
  · rw [handleSubmit_of_setDocFails svc s w u e h h1 h2 h3]
    simp [finallyBlock, setIsLoading, issue, started]
  · rw [handleSubmit_of_succeeds svc s w u hs]
    simp [finallyBlock, setIsLoading, setTimeoutNavigate, toastSuccess, consoleLog, issue,
      started]

/-- A run issues at most one store write. -/
theorem writes_of_run {W : Type} (svc : Services W) (s : State) (w : W) :
    ∃ cs : List Call, (handleSubmit svc s w).1.calls = s.calls ++ cs ∧ (writes cs).length ≤ 1 := by
  obtain ⟨hm, hc, hs, hd⟩ := calls_of_run svc s w
  by_cases h : s.password = s.confirmPassword
  · cases h1 : (createResult svc s w).1 with
    | error e => exact ⟨_, hc h e h1, by simp [writes]⟩
    | ok user =>
      cases h2 : (sendResult svc s w user).1 with
      | error e => exact ⟨_, hs h user e h1 h2, by simp [writes]⟩
      | ok u2 => exact ⟨_, hd h user h1 h2, by simp [writes]⟩
  · exact ⟨[], by simpa using hm h, by simp [writes]⟩

theorem mock_lawful : Lawful mock mockHasAccount mockHasDoc where
  create_holds := by
    intro email password w user h
    simp only [mock] at h ⊢
    cases hf : w.createFault with
    | some e => simp [hf] at h
    | none =>
      simp only [hf] at h ⊢
      split_ifs at h ⊢ with hany
      simp only [Except.ok.injEq] at h
      simp [mockHasAccount, h]
  send_keeps := by
    intro user w u h
    simp only [mock]
    cases hf : w.sendFault <;> simpa [mockHasAccount] using h
  setDoc_keeps := by
    intro ref data w u h
    simp only [mock]
    cases hf : w.setDocFault <;> simpa [mockHasAccount] using h
  create_adds_no_doc := by
    intro email password w ref h
    simp only [mock]
    cases hf : w.createFault with
    | some e => simpa using h
    | none =>
      simp only
      split_ifs <;> simpa [mockHasDoc] using h
  send_adds_no_doc := by
    intro user w ref h
    simp only [mock]
    cases hf : w.sendFault <;> simpa using h
  failed_setDoc_adds_no_doc := by
    intro ref data w error r herr h
    simp only [mock] at herr ⊢
    cases hf : w.setDocFault with
    | some e => simpa [hf] using h
    | none => simp [hf] at herr

/-- One event keeps the invariant of a mounted form. -/
theorem step_inv (pg pg1 : Page) (ev : Event) (hinv : pg.Inv) (h : step pg ev = some pg1) :
    pg1.Inv := by
  obtain ⟨st, fl⟩ := pg
  simp only [Page.Inv] at hinv
  rcases hinv with ⟨hnil, hload⟩ | ⟨p, hone, hload⟩
  · subst hnil
    cases ev with
    | submit =>
      simp only [step, submitDisabled, hload, Bool.false_eq_true, if_false,
        handleSubmit_start] at h
      split_ifs at h with hm
      · simp only [Option.some.injEq] at h
        subst h
        exact Or.inl ⟨rfl, by simp [setIsLoading]⟩
      · simp only [Option.some.injEq] at h
        subst h
        exact Or.inr ⟨_, rfl, by simp [issue, setIsLoading]⟩
    | createSettled i r => simp [step] at h
    | sendSettled i r iso => simp [step] at h
    | setDocSettled i r => simp [step] at h
    | setUsername v => simp only [step, Option.some.injEq] at h; subst h; exact Or.inl ⟨rfl, hload⟩
    | setEmail v => simp only [step, Option.some.injEq] at h; subst h; exact Or.inl ⟨rfl, hload⟩
    | setPassword v => simp only [step, Option.some.injEq] at h; subst h; exact Or.inl ⟨rfl, hload⟩
    | setConfirmPassword v =>
      simp only [step, Option.some.injEq] at h; subst h; exact Or.inl ⟨rfl, hload⟩
    | toggleShowPassword =>
      simp only [step, Option.some.injEq] at h; subst h; exact Or.inl ⟨rfl, hload⟩
    | toggleShowConfirmPassword =>
      simp only [step, Option.some.injEq] at h; subst h; exact Or.inl ⟨rfl, hload⟩
  · subst hone
    cases ev with
    | submit => simp [step, submitDisabled, hload] at h
    | createSettled i r =>
      cases i with
      | succ n => simp [step] at h
      | zero =>
        cases p with
        | create q =>
          cases r with
          | error e =>
            simp only [step, List.get?, handleSubmit_afterCreate, Option.some.injEq] at h
            subst h
            exact Or.inl ⟨rfl, by simp [finallyBlock, setIsLoading]⟩
          | ok u =>
            simp only [step, List.get?, handleSubmit_afterCreate, Option.some.injEq] at h
            subst h
            exact Or.inr ⟨_, rfl, by simpa [issue] using hload⟩
        | send q => simp [step] at h
        | setDoc q => simp [step] at h
    | sendSettled i r iso =>
      cases i with
      | succ n => simp [step] at h
      | zero =>
        cases p with
        | create q => simp [step] at h
        | send q =>
          cases r with
          | error e =>
            simp only [step, List.get?, handleSubmit_afterSend, Option.some.injEq] at h
            subst h
            exact Or.inl ⟨rfl, by simp [finallyBlock, setIsLoading]⟩
          | ok u =>
            simp only [step, List.get?, handleSubmit_afterSend, Option.some.injEq] at h
            subst h
            exact Or.inr ⟨_, rfl, by simpa [issue] using hload⟩
        | setDoc q => simp [step] at h
    | setDocSettled i r =>
      cases i with
      | succ n => simp [step] at h
      | zero =>
        cases p with
        | create q => simp [step] at h
        | send q => simp [step] at h
        | setDoc q =>
          simp only [step, List.get?, Option.some.injEq] at h
          subst h
          refine Or.inl ⟨rfl, ?_⟩
          cases r <;> simp [handleSubmit_afterSetDoc, finallyBlock, setIsLoading]
    | setUsername v =>
      simp only [step, Option.some.injEq] at h; subst h; exact Or.inr ⟨p, rfl, hload⟩
    | setEmail v =>
      simp only [step, Option.some.injEq] at h; subst h; exact Or.inr ⟨p, rfl, hload⟩
    | setPassword v =>
      simp only [step, Option.some.injEq] at h; subst h; exact Or.inr ⟨p, rfl, hload⟩
    | setConfirmPassword v =>
      simp only [step, Option.some.injEq] at h; subst h; exact Or.inr ⟨p, rfl, hload⟩
    | toggleShowPassword =>
      simp only [step, Option.some.injEq] at h; subst h; exact Or.inr ⟨p, rfl, hload⟩
    | toggleShowConfirmPassword =>
      simp only [step, Option.some.injEq] at h; subst h; exact Or.inr ⟨p, rfl, hload⟩

/-- Any sequence of events keeps the invariant. -/
theorem runEvents_inv (evs : List Event) :
    ∀ pg pg1 : Page, pg.Inv → runEvents pg evs = some pg1 → pg1.Inv := by
  induction evs with
  | nil =>
    intro pg pg1 hinv h
    simp only [runEvents, Option.some.injEq] at h
    exact h ▸ hinv
  | cons ev evs ih =>
    intro pg pg1 hinv h
    simp only [runEvents] at h
    cases hs : step pg ev with
    | none => simp [hs] at h
    | some pg2 =>
      simp only [hs] at h
      exact ih pg2 pg1 (step_inv pg pg2 ev hinv hs) h

/-! ## Properties of `handleSubmit` -/

/-- C1. When the password and its confirmation differ, a run shows exactly one
notification, the error "Passwords do not match", issues no remote call (neither
to the identity provider nor to the document store) and leaves the outside world
untouched, whatever the other fields and whatever the services would do. -/
theorem password_mismatch_makes_no_remote_call {W : Type} (svc : Services W) (s : State) (w : W)
    (h : s.password ≠ s.confirmPassword) :
    (handleSubmit svc s w).1.toasts = s.toasts ++ [Toast.error "Passwords do not match"] ∧
    (handleSubmit svc s w).1.calls = s.calls ∧
    (handleSubmit svc s w).2 = w := by
  rw [handleSubmit_of_mismatch svc s w h]
  simp [setIsLoading, toastError]

theorem password_mismatch_makes_no_remote_call_witness :
    mismatchForm.password ≠ mismatchForm.confirmPassword ∧
    (handleSubmit mock mismatchForm MockWorld.fresh).1.toasts =
      mismatchForm.toasts ++ [Toast.error "Passwords do not match"] ∧
    (handleSubmit mock mismatchForm MockWorld.fresh).1.calls = mismatchForm.calls ∧
    (handleSubmit mock mismatchForm MockWorld.fresh).2 = MockWorld.fresh :=
  ⟨by decide, password_mismatch_makes_no_remote_call mock mismatchForm MockWorld.fresh (by decide)⟩

/-- C2. When the passwords match and account creation, the verification request
and the store write all resolve, the run shows the success notification and
issues exactly the three calls in order; the only store write goes to collection
"users" under key `uid` and carries exactly the fields uid, email, username,
createdAt, with the uid and email of the account returned by the provider, the
username of the form and the clock reading taken when the write is issued. -/
theorem success_writes_one_profile {W : Type} (svc : Services W) (s : State) (w : W)
    (user : User) (h : Succeeds svc s w user) :
    (handleSubmit svc s w).1.toasts = s.toasts ++
      [Toast.success "Registration successful! Please check your email to verify your account."] ∧
    (handleSubmit svc s w).1.calls = s.calls ++
      [Call.createUserWithEmailAndPassword s.email s.password,
       Call.sendEmailVerification user,
       Call.setDoc { collection := "users", id := user.uid }
         [("uid", user.uid), ("email", user.email), ("username", s.username),
          ("createdAt", clockReading svc s w user)]] ∧
    writes (List.drop s.calls.length (handleSubmit svc s w).1.calls) =
      [({ collection := "users", id := user.uid },
        [("uid", user.uid), ("email", user.email), ("username", s.username),
         ("createdAt", clockReading svc s w user)])] ∧
    (handleSubmit svc s w).2 = (setDocResult svc s w user).2 := by
  rw [handleSubmit_of_succeeds svc s w user h]
  simp [finallyBlock, setIsLoading, setTimeoutNavigate, toastSuccess, consoleLog, issue, started,
    docUsers, profileData, writes]

theorem success_writes_one_profile_witness :
    Succeeds mock aliceForm MockWorld.fresh aliceUser ∧
    (handleSubmit mock aliceForm MockWorld.fresh).1.calls =
      [Call.createUserWithEmailAndPassword "a@b.com" "Abc123!",
       Call.sendEmailVerification aliceUser,
       Call.setDoc { collection := "users", id := "uid:a@b.com" }
         [("uid", "uid:a@b.com"), ("email", "a@b.com"), ("username", "alice"),
          ("createdAt", "2024-01-01T00:00:00.000Z")]] :=
  ⟨⟨rfl, rfl, rfl, rfl⟩,
    (success_writes_one_profile mock aliceForm MockWorld.fresh aliceUser ⟨rfl, rfl, rfl, rfl⟩).2.1⟩

/-- C3. Whichever remote call of the workflow is rejected, with `error`, the run
shows exactly one notification, an error whose text depends on `error` alone:
code `auth/email-already-in-use` (email_already_in_use in the vendor-neutral
wording) gives "Email already in use", `auth/invalid-email` (invalid_email)
gives "Invalid email", `auth/password-does-not-meet-requirements`
(password_does_not_meet_requirements) gives the weak password text, and any
other code, or none, gives "Error signing up: " followed by the message of the
error. -/
theorem error_text_is_function_of_error {W : Type} (svc : Services W) (s : State) (w : W)
    (error : JsError) (h : Raises svc s w error) :
    (handleSubmit svc s w).1.toasts = s.toasts ++ [Toast.error (errorText error)] ∧
    (error.code = some "auth/email-already-in-use" → errorText error = "Email already in use") ∧
    (error.code = some "auth/invalid-email" → errorText error = "Invalid email") ∧
    (error.code = some "auth/password-does-not-meet-requirements" → errorText error =
      "Weak password (minimum 6 characters, at least one uppercase letter, one lowercase letter, one special character, and one number)") ∧
    (error.code ≠ some "auth/email-already-in-use" → error.code ≠ some "auth/invalid-email" →
      error.code ≠ some "auth/password-does-not-meet-requirements" →
      errorText error = "Error signing up: " ++ error.message) := by
  refine ⟨toasts_of_raises svc s w error h, fun h1 => ?_, fun h2 => ?_, fun h3 => ?_,
    fun n1 n2 n3 => ?_⟩
  · simp [errorText, h1]
  · simp [errorText, h2]
  · simp [errorText, h3]
  · simp [errorText, n1, n2, n3]

theorem error_text_is_function_of_error_witness :
    Raises mock aliceForm
      (MockWorld.sendFailing { code := some "auth/invalid-email", message := "bad" })
      { code := some "auth/invalid-email", message := "bad" } ∧
    (handleSubmit mock aliceForm
      (MockWorld.sendFailing { code := some "auth/invalid-email", message := "bad" })).1.toasts =
      [Toast.error "Invalid email"] ∧
    Raises mock aliceForm (MockWorld.setDocFailing networkError) networkError ∧
    (handleSubmit mock aliceForm (MockWorld.setDocFailing networkError)).1.toasts =
      [Toast.error "Error signing up: offline"] :=
  ⟨⟨rfl, Or.inr (Or.inl ⟨aliceUser, rfl, rfl⟩)⟩,
    (error_text_is_function_of_error mock aliceForm
      (MockWorld.sendFailing { code := some "auth/invalid-email", message := "bad" })
      { code := some "auth/invalid-email", message := "bad" }
      ⟨rfl, Or.inr (Or.inl ⟨aliceUser, rfl, rfl⟩)⟩).1,
    ⟨rfl, Or.inr (Or.inr ⟨aliceUser, rfl, rfl, rfl⟩)⟩,
    (error_text_is_function_of_error mock aliceForm (MockWorld.setDocFailing networkError)
      networkError ⟨rfl, Or.inr (Or.inr ⟨aliceUser, rfl, rfl, rfl⟩)⟩).1⟩

/-- C4. For every request and every behaviour of the services, the calls issued by
one run are, by kind, a beginning of createAccount, sendVerificationEmail, write
(so each is made at most once and in this order); the verification request is
issued only if account creation resolved, and the write only if the verification
request resolved too; when account creation is rejected, with any error, neither
the verification request nor the write is issued. -/
theorem remote_calls_in_order {W : Type} (svc : Services W) (s : State) (w : W) :
    ∃ cs : List Call,
      (handleSubmit svc s w).1.calls = s.calls ++ cs ∧
      cs.map Call.kind <+:
        [CallKind.createAccount, CallKind.sendVerificationEmail, CallKind.write] ∧
      (CallKind.sendVerificationEmail ∈ cs.map Call.kind →
        ∃ user, (createResult svc s w).1 = Except.ok user) ∧
      (CallKind.write ∈ cs.map Call.kind →
        ∃ user, (createResult svc s w).1 = Except.ok user ∧
          (sendResult svc s w user).1 = Except.ok ()) ∧
      (∀ error, (createResult svc s w).1 = Except.error error →
        CallKind.sendVerificationEmail ∉ cs.map Call.kind ∧
        CallKind.write ∉ cs.map Call.kind ∧ writes cs = []) := by
  obtain ⟨hm, hc, hs, hd⟩ := calls_of_run svc s w
  by_cases h : s.password = s.confirmPassword
  · cases h1 : (createResult svc s w).1 with
    | error e =>
      refine ⟨_, hc h e h1, ?_, ?_, ?_, ?_⟩
      · exact ⟨[CallKind.sendVerificationEmail, CallKind.write], rfl⟩
      · simp [Call.kind]
      · simp [Call.kind]
      · intro _ _; simp [Call.kind, writes]
    | ok user =>
      cases h2 : (sendResult svc s w user).1 with
      | error e =>
        refine ⟨_, hs h user e h1 h2, ?_, ?_, ?_, ?_⟩
        · exact ⟨[CallKind.write], rfl⟩
        · simp [Call.kind]
        · simp [Call.kind]
        · intro _ hx; cases hx
      | ok u2 =>
        refine ⟨_, hd h user h1 h2, ?_, ?_, ?_, ?_⟩
        · exact ⟨[], rfl⟩
        · simp [Call.kind]
        · intro _; exact ⟨user, rfl, h2⟩
        · intro _ hx; cases hx
  · refine ⟨[], by simpa using hm h, ?_, ?_, ?_, ?_⟩
    · exact ⟨_, rfl⟩
    · simp
    · simp
    · intro _ _; simp [writes]

/-- C5. When the passwords match, account creation resolves and the verification
request is rejected with `error`, the run shows the one notification the `catch`
block gives for `error`, the same a run would show had account creation been
rejected with `error` (for an error whose code is none of the three recognised
ones, the text "Error signing up: " followed by its message), and it issues no
store write: its calls are the account creation and the verification request. -/
theorem send_failure_takes_same_catch_path {W : Type} (svc : Services W) (s : State) (w : W)
    (user : User) (error : JsError) (h : s.password = s.confirmPassword)
    (h1 : (createResult svc s w).1 = Except.ok user)
    (h2 : (sendResult svc s w user).1 = Except.error error) :
    (handleSubmit svc s w).1.toasts = s.toasts ++ [Toast.error (errorText error)] ∧
    (∀ (V : Type) (svc2 : Services V) (v : V),
      (createResult svc2 s v).1 = Except.error error →
      (handleSubmit svc2 s v).1.toasts = (handleSubmit svc s w).1.toasts) ∧
    (error.code ≠ some "auth/email-already-in-use" → error.code ≠ some "auth/invalid-email" →
      error.code ≠ some "auth/password-does-not-meet-requirements" →
      (handleSubmit svc s w).1.toasts =
        s.toasts ++ [Toast.error ("Error signing up: " ++ error.message)]) ∧
    (handleSubmit svc s w).1.calls = s.calls ++
      [Call.createUserWithEmailAndPassword s.email s.password, Call.sendEmailVerification user] ∧
    writes (List.drop s.calls.length (handleSubmit svc s w).1.calls) = [] ∧
    (handleSubmit svc s w).2 = (sendResult svc s w user).2 := by
  have ht := toasts_of_raises svc s w error ⟨h, Or.inr (Or.inl ⟨user, h1, h2⟩)⟩
  have hcalls := (calls_of_run svc s w).2.2.1 h user error h1 h2
  refine ⟨ht, fun V svc2 v hv => ?_, fun n1 n2 n3 => ?_, hcalls, ?_, ?_⟩
  · rw [ht, toasts_of_raises svc2 s v error ⟨h, Or.inl hv⟩]
  · rw [ht]; simp [errorText, n1, n2, n3]
  · rw [hcalls]; simp [writes]
  · rw [handleSubmit_of_sendFails svc s w user error h h1 h2]

theorem send_failure_takes_same_catch_path_witness :
    aliceForm.password = aliceForm.confirmPassword ∧
    (createResult mock aliceForm (MockWorld.sendFailing networkError)).1 = Except.ok aliceUser ∧
    (sendResult mock aliceForm (MockWorld.sendFailing networkError) aliceUser).1 =
      Except.error networkError ∧
    (handleSubmit mock aliceForm (MockWorld.sendFailing networkError)).1.toasts =
      [Toast.error "Error signing up: offline"] ∧
    (handleSubmit mock aliceForm (MockWorld.sendFailing networkError)).1.calls =
      [Call.createUserWithEmailAndPassword "a@b.com" "Abc123!",
       Call.sendEmailVerification aliceUser] :=
  ⟨rfl, rfl, rfl,
    (send_failure_takes_same_catch_path mock aliceForm (MockWorld.sendFailing networkError)
      aliceUser networkError rfl rfl rfl).1,
    (send_failure_takes_same_catch_path mock aliceForm (MockWorld.sendFailing networkError)
      aliceUser networkError rfl rfl rfl).2.2.2.1⟩

/-- C6. When the passwords match, account creation and the verification request
resolve and the store write is rejected, the run issues nothing after the
rejected write (its calls are exactly the three, the write last) and leaves the
world as the rejected write left it; hence, for services that keep accounts and
add no document other than by a resolved write, the provider still holds the new
account and the store holds no document under its uid if it held none before.
The run shows an error notification, no success one, and schedules no navigation. -/
theorem failed_write_is_not_compensated {W : Type} (svc : Services W) (s : State) (w : W)
    (user : User) (error : JsError) (hasAccount : W → User → Prop) (hasDoc : W → DocRef → Prop)
    (law : Lawful svc hasAccount hasDoc) (hfresh : ¬ hasDoc w (docUsers user))
    (h : s.password = s.confirmPassword)
    (h1 : (createResult svc s w).1 = Except.ok user)
    (h2 : (sendResult svc s w user).1 = Except.ok ())
    (h3 : (setDocResult svc s w user).1 = Except.error error) :
    (handleSubmit svc s w).1.calls = s.calls ++
      [Call.createUserWithEmailAndPassword s.email s.password,
       Call.sendEmailVerification user,
       Call.setDoc (docUsers user) (profileData user s.username (clockReading svc s w user))] ∧
    (handleSubmit svc s w).2 = (setDocResult svc s w user).2 ∧
    hasAccount (handleSubmit svc s w).2 user ∧
    ¬ hasDoc (handleSubmit svc s w).2 (docUsers user) ∧
    (handleSubmit svc s w).1.toasts = s.toasts ++ [Toast.error (errorText error)] ∧
    (handleSubmit svc s w).1.timers = s.timers := by
  have hr : Raises svc s w error := ⟨h, Or.inr (Or.inr ⟨user, h1, h2, h3⟩)⟩
  have hw : (handleSubmit svc s w).2 = (setDocResult svc s w user).2 := by
    rw [handleSubmit_of_setDocFails svc s w user error h h1 h2 h3]
  refine ⟨(calls_of_run svc s w).2.2.2 h user h1 h2, hw, ?_, ?_, toasts_of_raises svc s w error hr,
    timers_of_raises svc s w error hr⟩
  · rw [hw]
    exact law.setDoc_keeps _ _ _ _ (law.send_keeps _ _ _ (law.create_holds _ _ _ _ h1))
  · rw [hw]
    exact law.failed_setDoc_adds_no_doc _ _ _ error _ h3
      (law.send_adds_no_doc _ _ _ (law.create_adds_no_doc _ _ _ _ hfresh))

theorem failed_write_is_not_compensated_witness :
    Lawful mock mockHasAccount mockHasDoc ∧
    ¬ mockHasDoc (MockWorld.setDocFailing networkError) (docUsers aliceUser) ∧
    aliceForm.password = aliceForm.confirmPassword ∧
    (createResult mock aliceForm (MockWorld.setDocFailing networkError)).1 = Except.ok aliceUser ∧
    (sendResult mock aliceForm (MockWorld.setDocFailing networkError) aliceUser).1 =
      Except.ok () ∧
    (setDocResult mock aliceForm (MockWorld.setDocFailing networkError) aliceUser).1 =
      Except.error networkError ∧
    mockHasAccount (handleSubmit mock aliceForm (MockWorld.setDocFailing networkError)).2
      aliceUser ∧
    ¬ mockHasDoc (handleSubmit mock aliceForm (MockWorld.setDocFailing networkError)).2
      (docUsers aliceUser) ∧
    (handleSubmit mock aliceForm (MockWorld.setDocFailing networkError)).1.toasts =
      [Toast.error "Error signing up: offline"] :=
  ⟨mock_lawful, by simp [mockHasDoc, MockWorld.setDocFailing, MockWorld.fresh], rfl, rfl, rfl, rfl,
    (failed_write_is_not_compensated mock aliceForm (MockWorld.setDocFailing networkError)
      aliceUser networkError mockHasAccount mockHasDoc mock_lawful
      (by simp [mockHasDoc, MockWorld.setDocFailing, MockWorld.fresh]) rfl rfl rfl rfl).2.2.1,
    (failed_write_is_not_compensated mock aliceForm (MockWorld.setDocFailing networkError)
      aliceUser networkError mockHasAccount mockHasDoc mock_lawful
      (by simp [mockHasDoc, MockWorld.setDocFailing, MockWorld.fresh]) rfl rfl rfl rfl).2.2.2.1,
    (failed_write_is_not_compensated mock aliceForm (MockWorld.setDocFailing networkError)
      aliceUser networkError mockHasAccount mockHasDoc mock_lawful
      (by simp [mockHasDoc, MockWorld.setDocFailing, MockWorld.fresh]) rfl rfl rfl rfl).2.2.2.2.1⟩

/-- C7. After a failing run (password mismatch, or a rejection of any of the three
remote calls) the loading flag is down and e-mail, username, password, password
confirmation and both visibility toggles have the values they had before. -/
theorem failure_keeps_form_populated {W : Type} (svc : Services W) (s : State) (w : W)
    (h : Fails svc s w) :
    (handleSubmit svc s w).1.isLoading = false ∧
    (handleSubmit svc s w).1.email = s.email ∧
    (handleSubmit svc s w).1.username = s.username ∧
    (handleSubmit svc s w).1.password = s.password ∧
    (handleSubmit svc s w).1.confirmPassword = s.confirmPassword ∧
    (handleSubmit svc s w).1.showPassword = s.showPassword ∧
    (handleSubmit svc s w).1.showConfirmPassword = s.showConfirmPassword := by
  rcases h with hm | ⟨e, h, h1 | ⟨u, h1, h2⟩ | ⟨u, h1, h2, h3⟩⟩
  · rw [handleSubmit_of_mismatch svc s w hm]
    simp [setIsLoading, toastError]
  · rw [handleSubmit_of_createFails svc s w e h h1]
    simp [finallyBlock, setIsLoading, issue, started]
  · rw [handleSubmit_of_sendFails svc s w u e h h1 h2]
    simp [finallyBlock, setIsLoading, issue, started]
  · rw [handleSubmit_of_setDocFails svc s w u e h h1 h2 h3]
    simp [finallyBlock, setIsLoading, issue, started]

theorem failure_keeps_form_populated_witness :
    Fails mock aliceForm (MockWorld.createFailing networkError) ∧
    (handleSubmit mock aliceForm (MockWorld.createFailing networkError)).1.isLoading = false ∧
    (handleSubmit mock aliceForm (MockWorld.createFailing networkError)).1.email = "a@b.com" ∧
    (handleSubmit mock aliceForm (MockWorld.createFailing networkError)).1.username = "alice" :=
  ⟨Or.inr ⟨networkError, rfl, Or.inl rfl⟩,
    (failure_keeps_form_populated mock aliceForm (MockWorld.createFailing networkError)
      (Or.inr ⟨networkError, rfl, Or.inl rfl⟩)).1,
    (failure_keeps_form_populated mock aliceForm (MockWorld.createFailing networkError)
      (Or.inr ⟨networkError, rfl, Or.inl rfl⟩)).2.1,
    (failure_keeps_form_populated mock aliceForm (MockWorld.createFailing networkError)
      (Or.inr ⟨networkError, rfl, Or.inl rfl⟩)).2.2.1⟩

/-- C8. Every run is either a full success, and then it shows one success
notification and schedules exactly one navigation, to "/sign-in" after 10000 ms;
or a failure (password mismatch or a rejected remote call), and then it
schedules no navigation and shows one error notification and no success one.
The two cases exclude each other. -/
theorem navigation_iff_full_success {W : Type} (svc : Services W) (s : State) (w : W) :
    ((∃ user, Succeeds svc s w user) ∧ ¬ Fails svc s w ∧
      (handleSubmit svc s w).1.timers = s.timers ++ [{ delay := 10000, path := "/sign-in" }] ∧
      (handleSubmit svc s w).1.toasts = s.toasts ++
        [Toast.success
          "Registration successful! Please check your email to verify your account."]) ∨
    (Fails svc s w ∧ (¬ ∃ user, Succeeds svc s w user) ∧
      (handleSubmit svc s w).1.timers = s.timers ∧
      ∃ text, (handleSubmit svc s w).1.toasts = s.toasts ++ [Toast.error text]) := by
  have hfail : ∀ error, Raises svc s w error →
      (Fails svc s w ∧ (¬ ∃ user, Succeeds svc s w user) ∧
        (handleSubmit svc s w).1.timers = s.timers ∧
        ∃ text, (handleSubmit svc s w).1.toasts = s.toasts ++ [Toast.error text]) := by
    intro e hr
    have hf : Fails svc s w := Or.inr ⟨e, hr⟩
    exact ⟨hf, fun ⟨u, hu⟩ => not_fails_of_succeeds svc s w u hu hf, timers_of_raises svc s w e hr,
      _, toasts_of_raises svc s w e hr⟩
  rcases run_cases svc s w with h | ⟨h, e, h1⟩ | ⟨h, u, e, h1, h2⟩ | ⟨h, u, e, h1, h2, h3⟩ | ⟨u, hs⟩
  · right
    have hf : Fails svc s w := Or.inl h
    refine ⟨hf, fun ⟨u, hu⟩ => not_fails_of_succeeds svc s w u hu hf, ?_,
      "Passwords do not match", ?_⟩
    · rw [handleSubmit_of_mismatch svc s w h]; simp [setIsLoading, toastError]
    · rw [handleSubmit_of_mismatch svc s w h]; simp [setIsLoading, toastError]
  · exact Or.inr (hfail e ⟨h, Or.inl h1⟩)
  · exact Or.inr (hfail e ⟨h, Or.inr (Or.inl ⟨u, h1, h2⟩)⟩)
  · exact Or.inr (hfail e ⟨h, Or.inr (Or.inr ⟨u, h1, h2, h3⟩)⟩)
  · left
    refine ⟨⟨u, hs⟩, not_fails_of_succeeds svc s w u hs, ?_, ?_⟩
    · rw [handleSubmit_of_succeeds svc s w u hs]
      simp [finallyBlock, setIsLoading, setTimeoutNavigate, toastSuccess, consoleLog, issue,
        started]
    · rw [handleSubmit_of_succeeds svc s w u hs]
      simp [finallyBlock, setIsLoading, setTimeoutNavigate, toastSuccess, consoleLog, issue,
        started]

/-- C9 (as stated, refuted). Against a provider that accepts the first account
creation and rejects the second with `auth/email-already-in-use`, two runs with
the same request do not show the same message: the first shows the success
notification, the second "Email already in use". -/
theorem resubmit_messages_differ :
    (mock.createUserWithEmailAndPassword aliceForm.email aliceForm.password
        (handleSubmit mock aliceForm MockWorld.fresh).2).1 =
      Except.error { code := some "auth/email-already-in-use", message := "taken" } ∧
    (handleSubmit mock aliceForm MockWorld.fresh).1.toasts =
      [Toast.success "Registration successful! Please check your email to verify your account."] ∧
    (resubmit mock aliceForm MockWorld.fresh).1.toasts =
      [Toast.success "Registration successful! Please check your email to verify your account.",
       Toast.error "Email already in use"] ∧
    Toast.success "Registration successful! Please check your email to verify your account." ≠
      Toast.error "Email already in use" :=
  ⟨rfl, rfl, rfl, by simp⟩

/-- C9 (amended). Two runs in a row with the same request and matching passwords,
the provider rejecting the second account creation with code
`auth/email-already-in-use`: the second run adds exactly the notification "Email
already in use" and exactly one call, the rejected account creation, so the two
runs together issue at most one store write.  The first run shows the message of
its own outcome: when it fully succeeds it shows the success notification (the
two runs then show the success notification followed by "Email already in use",
and the store receives exactly one write, the profile of the new account); it
shows "Email already in use" whenever one of its own remote calls is rejected
with that code. -/
theorem resubmit_email_in_use {W : Type} (svc : Services W) (s : State) (w : W)
    (error : JsError) (h : s.password = s.confirmPassword)
    (hcode : error.code = some "auth/email-already-in-use")
    (h2 : (svc.createUserWithEmailAndPassword s.email s.password (handleSubmit svc s w).2).1 =
      Except.error error) :
    (resubmit svc s w).1.toasts =
      (handleSubmit svc s w).1.toasts ++ [Toast.error "Email already in use"] ∧
    (resubmit svc s w).1.calls = (handleSubmit svc s w).1.calls ++
      [Call.createUserWithEmailAndPassword s.email s.password] ∧
    (writes (List.drop s.calls.length (resubmit svc s w).1.calls)).length ≤ 1 ∧
    (∀ user, Succeeds svc s w user →
      (handleSubmit svc s w).1.toasts = s.toasts ++
        [Toast.success
          "Registration successful! Please check your email to verify your account."] ∧
      (resubmit svc s w).1.toasts = s.toasts ++
        [Toast.success "Registration successful! Please check your email to verify your account.",
         Toast.error "Email already in use"] ∧
      writes (List.drop s.calls.length (resubmit svc s w).1.calls) =
        [(docUsers user, profileData user s.username (clockReading svc s w user))]) ∧
    (∀ first : JsError, first.code = some "auth/email-already-in-use" →
      Raises svc s w first →
      (handleSubmit svc s w).1.toasts = s.toasts ++ [Toast.error "Email already in use"]) := by
  obtain ⟨_, he, hu, hp, hc, _, _⟩ := fields_of_run svc s w
  have hpw : (handleSubmit svc s w).1.password = (handleSubmit svc s w).1.confirmPassword := by
    rw [hp, hc]; exact h
  have hcr : (createResult svc (handleSubmit svc s w).1 (handleSubmit svc s w).2).1 =
      Except.error error := by
    simp only [createResult, he, hp]; exact h2
  have htext : errorText error = "Email already in use" := by simp [errorText, hcode]
  have hcalls : (resubmit svc s w).1.calls = (handleSubmit svc s w).1.calls ++
      [Call.createUserWithEmailAndPassword s.email s.password] := by
    have := (calls_of_run svc (handleSubmit svc s w).1 (handleSubmit svc s w).2).2.1 hpw error hcr
    rw [he, hp] at this
    exact this
  have htoasts : (resubmit svc s w).1.toasts =
      (handleSubmit svc s w).1.toasts ++ [Toast.error "Email already in use"] := by
    have := toasts_of_raises svc (handleSubmit svc s w).1 (handleSubmit svc s w).2 error
      ⟨hpw, Or.inl hcr⟩
    rw [htext] at this
    exact this
  refine ⟨htoasts, hcalls, ?_, fun user hs => ?_, fun first hfc hfr => ?_⟩
  · obtain ⟨cs, hcs, hlen⟩ := writes_of_run svc s w
    rw [hcalls, hcs, List.append_assoc, List.drop_left, writes_append]
    simpa [writes] using hlen
  · have hfirst : (handleSubmit svc s w).1.toasts = s.toasts ++
        [Toast.success
          "Registration successful! Please check your email to verify your account."] := by
      rw [handleSubmit_of_succeeds svc s w user hs]
      simp [finallyBlock, setIsLoading, setTimeoutNavigate, toastSuccess, consoleLog, issue,
        started]
    refine ⟨hfirst, ?_, ?_⟩
    · rw [htoasts, hfirst]; simp
    · rw [hcalls, (calls_of_run svc s w).2.2.2 hs.1 user hs.2.1 hs.2.2.1, List.append_assoc,
        List.drop_left]
      simp [writes]
  · rw [toasts_of_raises svc s w first hfr]
    simp [errorText, hfc]

theorem resubmit_email_in_use_witness :
    aliceForm.password = aliceForm.confirmPassword ∧
    (mock.createUserWithEmailAndPassword aliceForm.email aliceForm.password
        (handleSubmit mock aliceForm MockWorld.fresh).2).1 =
      Except.error { code := some "auth/email-already-in-use", message := "taken" } ∧
    Succeeds mock aliceForm MockWorld.fresh aliceUser ∧
    (handleSubmit mock aliceForm MockWorld.fresh).1.toasts =
      [Toast.success "Registration successful! Please check your email to verify your account."] ∧
    (resubmit mock aliceForm MockWorld.fresh).1.toasts =
      [Toast.success "Registration successful! Please check your email to verify your account.",
       Toast.error "Email already in use"] ∧
    writes (List.drop aliceForm.calls.length (resubmit mock aliceForm MockWorld.fresh).1.calls) =
      [({ collection := "users", id := "uid:a@b.com" },
        [("uid", "uid:a@b.com"), ("email", "a@b.com"), ("username", "alice"),
         ("createdAt", "2024-01-01T00:00:00.000Z")])] ∧
    Raises mock aliceForm
      (MockWorld.sendFailing { code := some "auth/email-already-in-use", message := "taken" })
      { code := some "auth/email-already-in-use", message := "taken" } ∧
    (handleSubmit mock aliceForm
      (MockWorld.sendFailing
        { code := some "auth/email-already-in-use", message := "taken" })).1.toasts =
      [Toast.error "Email already in use"] :=
  ⟨rfl, rfl, ⟨rfl, rfl, rfl, rfl⟩,
    ((resubmit_email_in_use mock aliceForm MockWorld.fresh
      { code := some "auth/email-already-in-use", message := "taken" } rfl rfl rfl).2.2.2.1
      aliceUser ⟨rfl, rfl, rfl, rfl⟩).1,
    ((resubmit_email_in_use mock aliceForm MockWorld.fresh
      { code := some "auth/email-already-in-use", message := "taken" } rfl rfl rfl).2.2.2.1
      aliceUser ⟨rfl, rfl, rfl, rfl⟩).2.1,
    ((resubmit_email_in_use mock aliceForm MockWorld.fresh
      { code := some "auth/email-already-in-use", message := "taken" } rfl rfl rfl).2.2.2.1
      aliceUser ⟨rfl, rfl, rfl, rfl⟩).2.2,
    ⟨rfl, Or.inr (Or.inl ⟨aliceUser, rfl, rfl⟩)⟩,
    (resubmit_email_in_use mock aliceForm
      (MockWorld.sendFailing { code := some "auth/email-already-in-use", message := "taken" })
      { code := some "auth/email-already-in-use", message := "taken" } rfl rfl rfl).2.2.2.2
      { code := some "auth/email-already-in-use", message := "taken" } rfl
      ⟨rfl, Or.inr (Or.inl ⟨aliceUser, rfl, rfl⟩)⟩⟩

/-- C10. In every state a mounted form can reach, at most one run of
`handleSubmit` is pending; while one is pending the loading flag is up, the
submit button is disabled and a submit event cannot occur.  The button is
disabled exactly when the flag is up.  The first segment of the handler raises
the flag before it issues its call, and a segment that ends at an `await` leaves
the flag as it found it. -/
theorem at_most_one_run_in_flight (evs : List Event) (pg : Page)
    (h : runEvents Page.initial evs = some pg) :
    pg.inflight.length ≤ 1 ∧
    (pg.inflight ≠ [] → pg.state.isLoading = true) ∧
    (pg.inflight ≠ [] → step pg Event.submit = none) ∧
    (∀ s : State, submitDisabled s = true ↔ s.isLoading = true) ∧
    (∀ (s s1 : State) (p : AwaitCreate), handleSubmit_start s = (s1, some p) →
      s1.isLoading = true) ∧
    (∀ (s s1 : State) (p : AwaitCreate) (r : Except JsError User) (q : AwaitSend),
      handleSubmit_afterCreate s p r = (s1, some q) → s1.isLoading = s.isLoading) ∧
    (∀ (s s1 : State) (p : AwaitSend) (r : Except JsError Unit) (iso : String) (q : AwaitSetDoc),
      handleSubmit_afterSend s p r iso = (s1, some q) → s1.isLoading = s.isLoading) := by
  have hinv : pg.Inv := runEvents_inv evs Page.initial pg (Or.inl ⟨rfl, rfl⟩) h
  refine ⟨?_, ?_, ?_, fun s => by simp [submitDisabled], ?_, ?_, ?_⟩
  · rcases hinv with ⟨hn, _⟩ | ⟨p, hp, _⟩
    · simp [hn]
    · simp [hp]
  · intro hne
    rcases hinv with ⟨hn, _⟩ | ⟨p, _, hl⟩
    · exact absurd hn hne
    · exact hl
  · intro hne
    rcases hinv with ⟨hn, _⟩ | ⟨p, _, hl⟩
    · exact absurd hn hne
    · simp [step, submitDisabled, hl]
  · intro s s1 p hs
    simp only [handleSubmit_start] at hs
    split_ifs at hs with hm
    · simp at hs
    · simp only [Prod.mk.injEq] at hs
      rw [← hs.1]
      simp [issue, setIsLoading]
  · intro s s1 p r q hs
    cases r with
    | error e => simp [handleSubmit_afterCreate] at hs
    | ok u =>
      simp only [handleSubmit_afterCreate, Prod.mk.injEq] at hs
      rw [← hs.1]
      simp [issue]
  · intro s s1 p r iso q hs
    cases r with
    | error e => simp [handleSubmit_afterSend] at hs
    | ok u =>
      simp only [handleSubmit_afterSend, Prod.mk.injEq] at hs
      rw [← hs.1]
      simp [issue]

theorem at_most_one_run_in_flight_witness :
    runEvents Page.initial demoEvents = some demoPage ∧
    demoPage.inflight.length ≤ 1 ∧
    (demoPage.inflight ≠ [] → demoPage.state.isLoading = true) ∧
    (demoPage.inflight ≠ [] → step demoPage Event.submit = none) :=
  ⟨rfl, (at_most_one_run_in_flight demoEvents demoPage rfl).1,
    (at_most_one_run_in_flight demoEvents demoPage rfl).2.1,
    (at_most_one_run_in_flight demoEvents demoPage rfl).2.2.1⟩

end Register
